import Mathlib

/-!
Shallow embedding of the AeroSwap protocol core: the hybrid HTLC coordinator
(src/src/services/htlc.js), the MEV-shield commit-reveal batch scheduler
(src/unnamed/part_004, class MEVShield) and the partial-fill engine
(src/src/services/partialFill.js).

Modelling conventions, used uniformly below:
- JS `Map` objects become association lists `List (Nat × _)`; `Map.set` on a
  fresh key is modelled by consing (`List.lookup` returns the first hit, which
  also matches `Map.set` overwrite semantics).
- Clock readings (`Date.now()`), random bytes (`crypto.randomBytes`), generated
  ids and simulated transaction receipts are explicit parameters.
- The external hash primitives (`ethers.keccak256`, sha256, and keccak over the
  ABI encoding of order parameters) enter the model as function parameters of
  type `Nat → Nat` resp. `OrderParams → Nat → Nat`.
- A JS `throw` before any mutation is modelled by returning `Except.error`
  together with the unchanged state.
- Floating-point quantities (price impact percentages, completion percentages)
  are outside the embedding; where a float comparison steers control flow
  (the price-impact check of `attemptFill`) its outcome enters as a `Bool`.
-/

namespace AeroSwap

/-- Signature-algorithm tag attached to a hash lock (htlc.js `generateHashLock`). -/
inductive Algorithm
  | ECDSA
  | EdDSA
  deriving DecidableEq, Repr

/-- Chain-family tag: the source's `chain.type` strings 'evm', 'bitcoin', 'aptos',
'solana'; `other` stands for every string that hits the `default:` branch of
`generateHashLock` (an unsupported family). -/
inductive ChainType
  | evm
  | bitcoin
  | aptos
  | solana
  | other
  deriving DecidableEq, Repr

/-- A chain descriptor as consumed by `createHTLCParams` (`fromChain`/`toChain`
objects with an `id` and a `type`). -/
structure Chain where
  id : Nat
  type : ChainType
  deriving DecidableEq, Repr

/-- Result of htlc.js `generateHashLock`. -/
structure HashLock where
  secret : Nat
  hash : Nat
  algorithm : Algorithm
  deriving DecidableEq, Repr

/-- htlc.js `generateHashLock(chainType, secret)`. `keccak256` and `sha256` are the
external hash primitives; `secretBytes` stands for the supplied or randomly
sampled 32-byte secret. `none` models the thrown `Unsupported chain type` error
of the `default:` branch. -/
def generateHashLock (keccak256 sha256 : Nat → Nat) (chainType : ChainType)
    (secretBytes : Nat) : Option HashLock :=
  match chainType with
  | ChainType.evm =>
      some { secret := secretBytes, hash := keccak256 secretBytes, algorithm := Algorithm.ECDSA }
  | ChainType.bitcoin =>
      some { secret := secretBytes, hash := sha256 secretBytes, algorithm := Algorithm.ECDSA }
  | ChainType.aptos =>
      some { secret := secretBytes, hash := sha256 secretBytes, algorithm := Algorithm.EdDSA }
  | ChainType.solana =>
      some { secret := secretBytes, hash := sha256 secretBytes, algorithm := Algorithm.EdDSA }
  | ChainType.other => none

/-- Lifecycle status of a swap record. htlc.js assigns the strings 'pending',
'deployed' and 'claimed'; `refunded` only arises in the spec-modelled refund
operation below (the source never implements refund). -/
inductive SwapStatus
  | pending
  | deployed
  | claimed
  | refunded
  deriving DecidableEq, Repr

/-- The `htlcParams` object stored in `activeSwaps` by `createHTLCParams` and
mutated by the later operations. -/
structure SwapRecord where
  swapId : Nat
  fromChain : Nat
  toChain : Nat
  amount : Nat
  recipient : Nat
  hashLock : Nat
  secret : Nat
  timelock : Nat
  algorithm : Algorithm
  status : SwapStatus
  txHash : Option Nat := none
  claimTxHash : Option Nat := none
  deriving DecidableEq, Repr

/-- Result of htlc.js `simulateTransaction` (hash, blockNumber, gasUsed; the
constant `status: 1` field is dropped). These values are produced with
`Math.random()` in the source, so the receipt is an input to the model. -/
structure Receipt where
  hash : Nat
  blockNumber : Nat
  gasUsed : Nat
  deriving DecidableEq, Repr

/-- State of the `HybridHTLC` service: the `activeSwaps` map keyed by swapId. -/
structure HTLCState where
  activeSwaps : List (Nat × SwapRecord)
  deriving DecidableEq, Repr

/-- Errors thrown by the HTLC operations. `swapNotFound` is the source's
'Swap not found', `invalidSecret` its 'Invalid secret'; the two refund errors
come from the spec's error taxonomy (the source implements no refund). -/
inductive HTLCError
  | swapNotFound
  | invalidSecret
  | timelockNotExpired
  | invalidState
  deriving DecidableEq, Repr

/-- Key lookup in the association-list model of a JS `Map` (first hit wins,
matching `Map.set` overwrite-by-cons). -/
def lookupKey {α : Type} (l : List (Nat × α)) (k : Nat) : Option α :=
  match l with
  | [] => none
  | (k', v) :: rest => if k = k' then some v else lookupKey rest k

/-- this.activeSwaps.get(swapId). -/
def lookupSwap (st : HTLCState) (swapId : Nat) : Option SwapRecord :=
  lookupKey st.activeSwaps swapId

/-- Pointwise update of the entry stored under key `k` in the association-list
model of a JS `Map`. -/
def updateEntry {α : Type} (k : Nat) (f : α → α) (p : Nat × α) : Nat × α :=
  if p.1 = k then (p.1, f p.2) else p

/-- In-place mutation of the record stored under `swapId`, as done by the JS code
through the object reference held in the map. -/
def updateSwap (st : HTLCState) (swapId : Nat) (f : SwapRecord → SwapRecord) : HTLCState :=
  { st with activeSwaps := st.activeSwaps.map (updateEntry swapId f) }

/-- htlc.js `createHTLCParams(fromChain, toChain, amount, recipient, timelock = 3600)`.
`now` is `Math.floor(Date.now() / 1000)`; `secretBytes` and `swapId` stand for the
sampled secret and generated id. The call throws (`none`) exactly when
`generateHashLock` throws on `fromChain.type`; note the source never inspects
`toChain.type`. On success the record is stored with status 'pending' and
`timelock := now + timelockSeconds`. -/
def createHTLCParams (keccak256 sha256 : Nat → Nat) (fromChain toChain : Chain)
    (amount recipient now secretBytes swapId : Nat) (st : HTLCState)
    (timelockSeconds : Nat := 3600) : Option (SwapRecord × HTLCState) :=
  match generateHashLock keccak256 sha256 fromChain.type secretBytes with
  | none => none
  | some hashLock =>
      let htlcParams : SwapRecord := {
        swapId := swapId
        fromChain := fromChain.id
        toChain := toChain.id
        amount := amount
        recipient := recipient
        hashLock := hashLock.hash
        secret := hashLock.secret
        timelock := now + timelockSeconds
        algorithm := hashLock.algorithm
        status := SwapStatus.pending }
      some (htlcParams, { st with activeSwaps := (swapId, htlcParams) :: st.activeSwaps })

/-- htlc.js `deployHTLC(params, signer)`, state part: on broadcast success the
stored record gets the receipt hash and status 'deployed'. -/
def deployHTLC (swapId : Nat) (receipt : Receipt) (st : HTLCState) :
    Except HTLCError Receipt × HTLCState :=
  (Except.ok receipt,
   updateSwap st swapId fun s => { s with txHash := some receipt.hash, status := SwapStatus.deployed })

/-- htlc.js `claimHTLC(swapId, secret, signer)`. `receipt` stands for the result of
`simulateTransaction`. The source checks the secret with `ethers.keccak256` only
(whatever algorithm the record carries) and performs no status check: any stored
record with a matching secret is (re-)claimed. The state component is the state
after the call; every error path leaves it unchanged. -/
def claimHTLC (keccak256 : Nat → Nat) (swapId secret : Nat) (receipt : Receipt)
    (st : HTLCState) : Except HTLCError Receipt × HTLCState :=
  match lookupSwap st swapId with
  | none => (Except.error HTLCError.swapNotFound, st)
  | some swap =>
      if keccak256 secret ≠ swap.hashLock then
        (Except.error HTLCError.invalidSecret, st)
      else
        (Except.ok receipt,
         updateSwap st swapId fun s =>
           { s with status := SwapStatus.claimed, claimTxHash := some receipt.hash })

/-- Modelled from the spec: the source contains no refund implementation (htlc.js
only mentions `refundSwap()` inside an ABI string literal). Spec section 4.1:
`refund(swapId, signerHandle)` fails with TimelockNotExpiredError if
`now <= record.timelock`, fails with InvalidStateError if status is already
'claimed', otherwise submits the refund and transitions the record to 'refunded'.
`receipt` stands for the submitted refund transaction's receipt. -/
def refundHTLC (swapId now : Nat) (receipt : Receipt) (st : HTLCState) :
    Except HTLCError Receipt × HTLCState :=
  match lookupSwap st swapId with
  | none => (Except.error HTLCError.swapNotFound, st)
  | some swap =>
      if now ≤ swap.timelock then
        (Except.error HTLCError.timelockNotExpired, st)
      else if swap.status = SwapStatus.claimed then
        (Except.error HTLCError.invalidState, st)
      else
        (Except.ok receipt, updateSwap st swapId fun s => { s with status := SwapStatus.refunded })

/-- Result object of htlc.js `monitorSwap`. -/
structure MonitorResult where
  swapId : Nat
  status : SwapStatus
  fromChain : Nat
  toChain : Nat
  timeRemaining : Int
  canClaim : Bool
  canRefund : Bool
  deriving DecidableEq, Repr

/-- htlc.js `monitorSwap(swapId)` with `now = Math.floor(Date.now() / 1000)`.
Pure read: `null` (`none`) for an unknown id, otherwise a projection of the
stored record. `canClaim` is `swap.status === 'deployed'`; `canRefund` is
`swap.timelock < now` — the source does not consult `status` for `canRefund`. -/
def monitorSwap (st : HTLCState) (swapId now : Nat) : Option MonitorResult :=
  match lookupSwap st swapId with
  | none => none
  | some swap =>
      some {
        swapId := swapId
        status := swap.status
        fromChain := swap.fromChain
        toChain := swap.toChain
        timeRemaining := (swap.timelock : Int) - (now : Int)
        canClaim := decide (swap.status = SwapStatus.deployed)
        canRefund := decide (swap.timelock < now) }

/-- Order parameters bound by a MEV-shield commitment (the six values the source
ABI-encodes, plus the `user` field it stores alongside). -/
structure OrderParams where
  tokenIn : Nat
  tokenOut : Nat
  amountIn : Nat
  minAmountOut : Nat
  deadline : Nat
  user : Nat
  deriving DecidableEq, Repr

/-- part_004 commit lifecycle strings 'committed', 'revealed', 'executed', 'failed'. -/
inductive CommitStatus
  | committed
  | revealed
  | executed
  | failed
  deriving DecidableEq, Repr

/-- The `commitData` object stored in `pendingCommits` by `createCommitment`. -/
structure CommitData where
  id : Nat
  commitment : Nat
  nonce : Nat
  orderParams : OrderParams
  timestamp : Nat
  status : CommitStatus
  deriving DecidableEq, Repr

/-- State of the `MEVShield` service: `pendingCommits` keyed by the commitment
digest, and the `currentBatch` array of revealed orders. -/
structure MEVState where
  pendingCommits : List (Nat × CommitData)
  currentBatch : List CommitData
  deriving DecidableEq, Repr

/-- Errors thrown by `revealOrder`: 'Commitment not found' and
'Invalid reveal - commitment mismatch'. -/
inductive RevealError
  | commitmentNotFound
  | commitmentMismatch
  deriving DecidableEq, Repr

/-- Return value of part_004 `createCommitment`. -/
structure CommitResult where
  orderId : Nat
  commitment : Nat
  revealDeadline : Nat
  deriving DecidableEq, Repr

/-- Return value of part_004 `revealOrder` (`estimatedExecution` omitted). -/
structure RevealResult where
  orderId : Nat
  batchPosition : Nat
  deriving DecidableEq, Repr

/-- part_004 `createCommitment(orderParams)`. `digest` stands for
keccak256 of the ABI encoding of (tokenIn, tokenOut, amountIn, minAmountOut,
deadline, nonce); `nonce`, `orderId` and `now` are the sampled 32 random bytes,
the generated id and `Date.now()`. Stores the commit with status 'committed' and
returns a reveal deadline 30000 ms ahead. -/
def createCommitment (digest : OrderParams → Nat → Nat) (orderParams : OrderParams)
    (nonce orderId now : Nat) (st : MEVState) : CommitResult × MEVState :=
  let commitment := digest orderParams nonce
  let commitData : CommitData := {
    id := orderId
    commitment := commitment
    nonce := nonce
    orderParams := orderParams
    timestamp := now
    status := CommitStatus.committed }
  ({ orderId := orderId, commitment := commitment, revealDeadline := now + 30000 },
   { st with pendingCommits := (commitment, commitData) :: st.pendingCommits })

/-- part_004 `revealOrder(commitment, orderParams, nonce)`. Recomputes the digest
from the revealed values and throws (no mutation) when it disagrees with the map
key; on success flips the stored commit's status to 'revealed' and pushes it on
the current batch (the source pushes the very object it mutated, so the map entry
and the batch entry agree), reporting the 0-based batch position. -/
def revealOrder (digest : OrderParams → Nat → Nat) (commitment : Nat)
    (orderParams : OrderParams) (nonce : Nat) (st : MEVState) :
    Except RevealError RevealResult × MEVState :=
  match lookupKey st.pendingCommits commitment with
  | none => (Except.error RevealError.commitmentNotFound, st)
  | some commitData =>
      let computedCommitment := digest orderParams nonce
      if computedCommitment ≠ commitment then
        (Except.error RevealError.commitmentMismatch, st)
      else
        let revealed : CommitData := { commitData with status := CommitStatus.revealed }
        (Except.ok { orderId := commitData.id, batchPosition := st.currentBatch.length },
         { pendingCommits := st.pendingCommits.map (updateEntry commitment fun _ => revealed)
           currentBatch := st.currentBatch ++ [revealed] })

/-- part_004 `processBatch()`. Sorts the accumulated batch ascending by the commit
timestamp (`(a, b) => a.timestamp - b.timestamp`), executes each order in that
sequence and clears the batch. `execOk` abstracts whether
`executeProtectedOrder` succeeds or throws (its pricing uses `Math.random()`);
the per-order status becomes 'executed' or 'failed' accordingly, reflected in
`pendingCommits` through the shared object reference. The first component is the
list of orders in execution sequence. -/
def processBatch (execOk : CommitData → Bool) (st : MEVState) :
    List CommitData × MEVState :=
  if st.currentBatch.isEmpty then ([], st)
  else
    let sortedOrders := st.currentBatch.mergeSort fun a b => decide (a.timestamp ≤ b.timestamp)
    let finished := sortedOrders.map fun o =>
      { o with status := if execOk o then CommitStatus.executed else CommitStatus.failed }
    (sortedOrders,
     { pendingCommits := st.pendingCommits.map fun p =>
         match finished.find? (fun o => o.commitment == p.1) with
         | some o => (p.1, o)
         | none => p
       currentBatch := [] })

/-- Result object of part_004 `getOrderStatus` (`executionResult` omitted). -/
structure MEVOrderStatus where
  orderId : Nat
  status : CommitStatus
  commitment : Nat
  timestamp : Nat
  deriving DecidableEq, Repr

/-- part_004 `getOrderStatus(orderId)`: scans `pendingCommits` for a commit whose
`id` matches and returns `null` (`none`) when none does. Pure read. -/
def MEVState.getOrderStatus (st : MEVState) (orderId : Nat) : Option MEVOrderStatus :=
  match st.pendingCommits.find? (fun p => p.2.id == orderId) with
  | some p =>
      some { orderId := orderId, status := p.2.status, commitment := p.1, timestamp := p.2.timestamp }
  | none => none

/-- A fill record as built by partialFill.js `executeFill` (the float-valued
`price`, the `gasUsed`, `txHash` and the constant `status: 'executed'` fields
are omitted; `fillId` and `timestamp` stand for the generated id and
`Date.now()`). Immutable once created. -/
structure Fill where
  fillId : Nat
  orderId : Nat
  providerId : Nat
  amountIn : Nat
  amountOut : Nat
  timestamp : Nat
  deriving DecidableEq, Repr

/-- Order lifecycle of the partial-fill engine. The source assigns only the
strings 'open' (here `opened`, since `open` is a reserved word) and 'completed';
`expired` is the third value of the spec's enum, which no code path in
partialFill.js ever assigns. -/
inductive PFStatus
  | opened
  | completed
  | expired
  deriving DecidableEq, Repr

/-- The order object stored by partialFill.js `createPartialOrder` (named
PFOrder because PartialOrder is already taken by the ordered-set class; the
float-valued `currentPrice` field is outside the embedding). -/
structure PFOrder where
  id : Nat
  user : Nat
  tokenIn : Nat
  tokenOut : Nat
  totalAmountIn : Nat
  remainingAmountIn : Nat
  minAmountOut : Nat
  maxSlippage : Nat
  deadline : Nat
  fills : List Fill
  status : PFStatus
  createdAt : Nat
  chainId : Nat
  expectedAmountOut : Nat
  deriving DecidableEq, Repr

/-- A liquidity provider registered with the engine (`lpData`). `maxFillSize` is
kept in whole-token units exactly as stored; the engine multiplies it by 10^18
(`ethers.parseEther`) when sizing a fill. -/
structure LiquidityProvider where
  id : Nat
  address : Nat
  tokens : List Nat
  maxFillSize : Nat
  minProfitBps : Nat
  reputation : Nat
  totalFills : Nat
  totalVolume : Nat
  isActive : Bool
  deriving DecidableEq, Repr

/-- partialFill.js constructor: `this.minFillAmount = ethers.parseEther('10')`. -/
def minFillAmount : Nat := 10 * 10 ^ 18

/-- partialFill.js `createPartialOrder(orderParams)` — the stored order as first
constructed: the full amount remaining, no fills, status 'open'.
`expectedAmountOut` is the external 1inch quote's `dstAmount` and `orderId` /
`createdAt` the generated id and `Date.now()`. -/
def createPartialOrder (orderId user tokenIn tokenOut amountIn minAmountOut
    maxSlippage deadline createdAt chainId expectedAmountOut : Nat) : PFOrder :=
  { id := orderId
    user := user
    tokenIn := tokenIn
    tokenOut := tokenOut
    totalAmountIn := amountIn
    remainingAmountIn := amountIn
    minAmountOut := minAmountOut
    maxSlippage := maxSlippage
    deadline := deadline
    fills := []
    status := PFStatus.opened
    createdAt := createdAt
    chainId := chainId
    expectedAmountOut := expectedAmountOut }

/-- partialFill.js `calculateFillSize(order, lp)`: the smaller of the provider's
parseEther'd cap and the remaining amount, raised to the minimum fill if below
it, then clamped back so it never exceeds the remaining amount. -/
def calculateFillSize (order : PFOrder) (lp : LiquidityProvider) : Nat :=
  let maxLPFill := lp.maxFillSize * 10 ^ 18
  let remainingAmount := order.remainingAmountIn
  let fillSize := if maxLPFill < remainingAmount then maxLPFill else remainingAmount
  let fillSize' := if fillSize < minFillAmount then minFillAmount else fillSize
  if fillSize' > remainingAmount then remainingAmount else fillSize'

/-- Outcome of the external 1inch quote for one fill attempt, as consumed by
partialFill.js `attemptFill`: the quoted `dstAmount`, and the outcome of the
floating-point comparison `calculatePriceImpact(...) > order.maxSlippage`
(which enters the model as a `Bool`). `fillId` and `timestamp` stand for the
generated fill id and clock reading of `executeFill`. -/
structure FillQuote where
  dstAmount : Nat
  impactTooHigh : Bool
  fillId : Nat
  timestamp : Nat
  deriving DecidableEq, Repr

/-- partialFill.js `attemptFill(order, lp)`. Returns the updated order, the
updated provider, and the executed fill when one happened; when the attempt is
skipped (size below the minimum fill, or price impact above `maxSlippage`) the
order and provider come back unchanged with `none`. On an executed fill the fill
is appended, `remainingAmountIn` is decremented by the fill size and the
provider's `totalFills` / `totalVolume` are bumped. -/
def attemptFill (order : PFOrder) (lp : LiquidityProvider) (q : FillQuote) :
    PFOrder × LiquidityProvider × Option Fill :=
  let fillSize := calculateFillSize order lp
  if fillSize < minFillAmount then (order, lp, none)
  else if q.impactTooHigh then (order, lp, none)
  else
    let fill : Fill := {
      fillId := q.fillId
      orderId := order.id
      providerId := lp.id
      amountIn := fillSize
      amountOut := q.dstAmount
      timestamp := q.timestamp }
    ({ order with
        fills := order.fills ++ [fill]
        remainingAmountIn := order.remainingAmountIn - fillSize },
     { lp with totalFills := lp.totalFills + 1, totalVolume := lp.totalVolume + fillSize },
     some fill)

/-- The provider loop inside partialFill.js `matchOrder`: visits the suitable
providers in ranked sequence, breaking as soon as `remainingAmountIn` falls to
the minimum fill or below; each visit runs `attemptFill`. Each list element
pairs the provider with the external quote its attempt would receive. -/
def matchOrderPass (order : PFOrder) (lps : List (LiquidityProvider × FillQuote)) : PFOrder :=
  match lps with
  | [] => order
  | (lp, q) :: rest =>
      if order.remainingAmountIn ≤ minFillAmount then order
      else matchOrderPass (attemptFill order lp q).1 rest

/-- Tail of partialFill.js `matchOrder`: when the remainder is at or below the
minimum fill the order becomes 'completed'; otherwise it is left untouched and a
retry is scheduled (`setTimeout(.., 10000)`), modelled by the `Bool`. The
deadline is never consulted. -/
def matchOrderFinish (order : PFOrder) : PFOrder × Bool :=
  if order.remainingAmountIn ≤ minFillAmount then
    ({ order with status := PFStatus.completed }, false)
  else (order, true)

/-- One invocation of partialFill.js `matchOrder(orderId)` on an order that is
present: the guard `order.status !== 'open'` aborts, otherwise the provider pass
runs and the status/reschedule tail follows. The `Bool` reports whether a retry
was scheduled. -/
def matchOrder (order : PFOrder) (lps : List (LiquidityProvider × FillQuote)) :
    PFOrder × Bool :=
  if order.status ≠ PFStatus.opened then (order, false)
  else matchOrderFinish (matchOrderPass order lps)

/-- State of the partial-fill engine (`this.partialOrders` keyed by order id and
`this.liquidityProviders` keyed by provider id; the fill-history map is not
needed by any claim). -/
structure PFState where
  orders : List (Nat × PFOrder)
  liquidityProviders : List (Nat × LiquidityProvider)
  deriving DecidableEq, Repr

/-- Result object of partialFill.js `getOrderStatus` (the float-valued
`completionPercentage`, `averageFillSize` and `estimatedCompletion` are outside
the embedding). -/
structure PFStatusResult where
  orderId : Nat
  status : PFStatus
  totalAmount : Nat
  remainingAmount : Nat
  fillCount : Nat
  deriving DecidableEq, Repr

/-- partialFill.js `getOrderStatus(orderId)`: `null` (`none`) for an unknown id,
otherwise a pure projection of the stored order. -/
def PFState.getOrderStatus (st : PFState) (orderId : Nat) : Option PFStatusResult :=
  match lookupKey st.orders orderId with
  | none => none
  | some order =>
      some { orderId := orderId
             status := order.status
             totalAmount := order.totalAmountIn
             remainingAmount := order.remainingAmountIn
             fillCount := order.fills.length }

/-- Sum of `fill.amountIn` over a fill list. -/
def fillSum (fills : List Fill) : Nat :=
  (fills.map Fill.amountIn).sum

/-- The conservation invariant of the spec's PartialOrder data model. -/
def conservation (order : PFOrder) : Prop :=
  fillSum order.fills + order.remainingAmountIn = order.totalAmountIn

instance (order : PFOrder) : Decidable (conservation order) := by
  unfold conservation; infer_instance

/-- All observation points of a sequence of fill attempts: the order after
creation and after each attempt. -/
def runAttempts (order : PFOrder) (steps : List (LiquidityProvider × FillQuote)) :
    List PFOrder :=
  match steps with
  | [] => [order]
  | (lp, q) :: rest => order :: runAttempts (attemptFill order lp q).1 rest

/-! Concrete fixtures used by counterexamples and witnesses. `idDigest` instantiates
the abstract keccak256 parameter with a concrete executable function (the model
never relies on any property of the hash primitive). -/

/-- A concrete stand-in for the external 32-byte hash primitive. -/
def idDigest : Nat → Nat := fun s => s

/-- A concrete stand-in for the commitment digest over order parameters. -/
def nonceDigest : OrderParams → Nat → Nat := fun _ n => n

def rcptA : Receipt := { hash := 7, blockNumber := 1, gasUsed := 21000 }

def rcptB : Receipt := { hash := 99, blockNumber := 2, gasUsed := 21000 }

/-- A swap record as stored right after `createHTLCParams` (status 'pending'),
with `hashLock = idDigest 5`. -/
def pendingSwap : SwapRecord := {
  swapId := 1
  fromChain := 1
  toChain := 137
  amount := 1000000
  recipient := 42
  hashLock := 5
  secret := 5
  timelock := 10
  algorithm := Algorithm.ECDSA
  status := SwapStatus.pending }

def pendingSwapState : HTLCState := { activeSwaps := [(1, pendingSwap)] }

/-- A swap record in terminal status 'claimed' holding a stored claim receipt. -/
def claimedSwap : SwapRecord := {
  swapId := 9
  fromChain := 1
  toChain := 137
  amount := 1000000
  recipient := 42
  hashLock := 5
  secret := 5
  timelock := 10
  algorithm := Algorithm.ECDSA
  status := SwapStatus.claimed
  claimTxHash := some 7 }

def claimedSwapState : HTLCState := { activeSwaps := [(9, claimedSwap)] }

def chainEvm : Chain := { id := 1, type := ChainType.evm }

/-- A destination chain whose family hits the unsupported default branch. -/
def chainUnknown : Chain := { id := 999, type := ChainType.other }

def htlcEmpty : HTLCState := { activeSwaps := [] }

/-- An open partial order whose deadline (10) is long past while well more than
the minimum fill remains outstanding. -/
def staleOrder : PFOrder :=
  createPartialOrder 6 42 11 22 (20 * 10 ^ 18) 1 1 10 3 1 (19 * 10 ^ 18)

def stalePFState : PFState := { orders := [(6, staleOrder)], liquidityProviders := [] }

def pfEmpty : PFState := { orders := [], liquidityProviders := [] }

def mevEmpty : MEVState := { pendingCommits := [], currentBatch := [] }

def sampleParams : OrderParams := {
  tokenIn := 11
  tokenOut := 22
  amountIn := 1000
  minAmountOut := 900
  deadline := 50000
  user := 42 }

/-- The commit stored by `createCommitment nonceDigest sampleParams 5 3 100`:
commitment digest 5, status 'committed'. -/
def sampleCommit : CommitData := {
  id := 3
  commitment := 5
  nonce := 5
  orderParams := sampleParams
  timestamp := 100
  status := CommitStatus.committed }

def oneCommitState : MEVState := { pendingCommits := [(5, sampleCommit)], currentBatch := [] }

/-- The record produced by
`createHTLCParams idDigest idDigest chainEvm chainUnknown 1000000 42 500 5 1 htlcEmpty 3600`. -/
def c8result : SwapRecord := {
  swapId := 1
  fromChain := 1
  toChain := 999
  amount := 1000000
  recipient := 42
  hashLock := 5
  secret := 5
  timelock := 4100
  algorithm := Algorithm.ECDSA
  status := SwapStatus.pending }

def c8state : HTLCState := { activeSwaps := [(1, c8result)] }

/-- A provider whose parseEther'd cap (15 * 10^18) is between the minimum fill
and staleOrder's remaining amount. -/
def lpBig : LiquidityProvider := {
  id := 7
  address := 1
  tokens := [3, 4]
  maxFillSize := 15
  minProfitBps := 10
  reputation := 100
  totalFills := 0
  totalVolume := 0
  isActive := true }

/-- A quote whose price impact passed the slippage check. -/
def qA : FillQuote := { dstAmount := 14 * 10 ^ 18, impactTooHigh := false, fillId := 77, timestamp := 4 }

/-- The fill `attemptFill staleOrder lpBig qA` executes. -/
def fillA : Fill := {
  fillId := 77
  orderId := 6
  providerId := 7
  amountIn := 15 * 10 ^ 18
  amountOut := 14 * 10 ^ 18
  timestamp := 4 }

/-! Helper lemmas shared by the claim theorems below. -/

theorem updateEntry_eq {α : Type} (k : Nat) (f : α → α) (v : α) :
    updateEntry k f (k, v) = (k, f v) := by
  simp [updateEntry]

theorem updateEntry_ne {α : Type} (k k' : Nat) (f : α → α) (v : α) (h : k' ≠ k) :
    updateEntry k f (k', v) = (k', v) := by
  simp [updateEntry, h]

theorem lookupKey_map_update {α : Type} (l : List (Nat × α)) (k : Nat) (f : α → α) :
    lookupKey (l.map (updateEntry k f)) k = (lookupKey l k).map f := by
  induction l with
  | nil => rfl
  | cons p rest ih =>
    obtain ⟨k', v⟩ := p
    by_cases h : k' = k
    · subst h
      rw [List.map_cons, updateEntry_eq]
      simp [lookupKey]
    · rw [List.map_cons, updateEntry_ne _ _ _ _ h]
      simp [lookupKey, Ne.symm h, ih]

theorem lookupSwap_updateSwap (st : HTLCState) (swapId : Nat) (f : SwapRecord → SwapRecord) :
    lookupSwap (updateSwap st swapId f) swapId = (lookupSwap st swapId).map f := by
  unfold lookupSwap updateSwap
  exact lookupKey_map_update st.activeSwaps swapId f

theorem minFillAmount_pos : 0 < minFillAmount := by
  unfold minFillAmount
  positivity

theorem calculateFillSize_le (order : PFOrder) (lp : LiquidityProvider) :
    calculateFillSize order lp ≤ order.remainingAmountIn := by
  simp only [calculateFillSize]
  split_ifs <;> omega

theorem conservation_attemptFill (order : PFOrder) (lp : LiquidityProvider) (q : FillQuote)
    (h : conservation order) : conservation (attemptFill order lp q).1 := by
  have hle := calculateFillSize_le order lp
  simp only [attemptFill]
  split_ifs with h1 h2
  · exact h
  · exact h
  · unfold conservation fillSum at h ⊢
    simp only [List.map_append, List.sum_append, List.map_cons, List.map_nil,
      List.sum_cons, List.sum_nil]
    omega

theorem attemptFill_decreases (order : PFOrder) (lp : LiquidityProvider) (q : FillQuote)
    (f : Fill) (hf : (attemptFill order lp q).2.2 = some f) :
    (attemptFill order lp q).1.remainingAmountIn < order.remainingAmountIn := by
  have hle := calculateFillSize_le order lp
  have hpos := minFillAmount_pos
  by_cases h1 : calculateFillSize order lp < minFillAmount
  · exfalso
    simp [attemptFill, h1] at hf
  · by_cases h2 : q.impactTooHigh
    · exfalso
      simp [attemptFill, h1, h2] at hf
    · have hrem : (attemptFill order lp q).1.remainingAmountIn
          = order.remainingAmountIn - calculateFillSize order lp := by
        simp [attemptFill, h1, h2]
      rw [hrem]
      omega

theorem attemptFill_status (order : PFOrder) (lp : LiquidityProvider) (q : FillQuote) :
    (attemptFill order lp q).1.status = order.status := by
  by_cases h1 : calculateFillSize order lp < minFillAmount
  · simp [attemptFill, h1]
  · by_cases h2 : q.impactTooHigh
    · simp [attemptFill, h1, h2]
    · simp [attemptFill, h1, h2]

theorem matchOrderPass_status (order : PFOrder) (lps : List (LiquidityProvider × FillQuote)) :
    (matchOrderPass order lps).status = order.status := by
  induction lps generalizing order with
  | nil => rfl
  | cons s rest ih =>
    obtain ⟨lp, q⟩ := s
    unfold matchOrderPass
    split_ifs with h
    · rfl
    · exact (ih _).trans (attemptFill_status order lp q)

theorem conservation_runAttempts (order : PFOrder)
    (steps : List (LiquidityProvider × FillQuote)) (h : conservation order) :
    ∀ o ∈ runAttempts order steps, conservation o := by
  induction steps generalizing order with
  | nil =>
    intro o ho
    simp only [runAttempts, List.mem_singleton] at ho
    subst ho
    exact h
  | cons s rest ih =>
    obtain ⟨lp, q⟩ := s
    intro o ho
    simp only [runAttempts, List.mem_cons] at ho
    rcases ho with rfl | ho
    · exact h
    · exact ih _ (conservation_attemptFill order lp q h) o ho

/-! Claim C1. -/

/-- C1 counterexample: on the concrete store holding a swap whose status is still
'pending', `claimHTLC` with the matching secret succeeds, so success does not
require status 'deployed' — refuting the claimed iff at this input. -/
theorem claimHTLC_pending_claim_succeeds :
    (claimHTLC idDigest 1 5 rcptA pendingSwapState).1 = Except.ok rcptA ∧
    pendingSwap.status ≠ SwapStatus.deployed ∧
    idDigest 5 = pendingSwap.hashLock := by
  refine ⟨rfl, by decide, rfl⟩

/-- C1 (amended): for every stored swap record, `claimHTLC` succeeds iff the
keccak256 digest of the provided secret equals the record's hashLock — the
record's status is not consulted; for every secret whose digest does not match,
the call fails with the invalid-secret error and leaves the store unchanged. -/
theorem claimHTLC_success_iff_secret_matches (keccak256 : Nat → Nat) (st : HTLCState)
    (swapId secret : Nat) (receipt : Receipt) (swap : SwapRecord)
    (hlook : lookupSwap st swapId = some swap) :
    ((claimHTLC keccak256 swapId secret receipt st).1 = Except.ok receipt ↔
       keccak256 secret = swap.hashLock) ∧
    (keccak256 secret ≠ swap.hashLock →
       (claimHTLC keccak256 swapId secret receipt st).1 = Except.error HTLCError.invalidSecret ∧
       (claimHTLC keccak256 swapId secret receipt st).2 = st) := by
  unfold claimHTLC
  rw [hlook]
  by_cases h : keccak256 secret = swap.hashLock
  · simp [h]
  · simp [h]

/-- Witness for C1's amended theorem: the pending-swap store with a wrong secret
(digest 6 against hashLock 5). -/
theorem claimHTLC_success_iff_secret_matches_witness :
    ((claimHTLC idDigest 1 6 rcptA pendingSwapState).1 = Except.ok rcptA ↔
        idDigest 6 = pendingSwap.hashLock) ∧
    (claimHTLC idDigest 1 6 rcptA pendingSwapState).1 = Except.error HTLCError.invalidSecret ∧
    (claimHTLC idDigest 1 6 rcptA pendingSwapState).2 = pendingSwapState :=
  ⟨(claimHTLC_success_iff_secret_matches idDigest pendingSwapState 1 6 rcptA pendingSwap rfl).1,
   ((claimHTLC_success_iff_secret_matches idDigest pendingSwapState 1 6 rcptA pendingSwap rfl).2
      (by decide)).1,
   ((claimHTLC_success_iff_secret_matches idDigest pendingSwapState 1 6 rcptA pendingSwap rfl).2
      (by decide)).2⟩

/-! Claim C2. -/

/-- C2 counterexample: under the spec-modelled refund, a swap whose status is
still 'pending' (never deployed) refunds successfully once the timelock has
passed, so refund success does not require status 'deployed' as claimed. -/
theorem refundHTLC_pending_refund_succeeds :
    (refundHTLC 1 100 rcptA pendingSwapState).1 = Except.ok rcptA ∧
    pendingSwap.status ≠ SwapStatus.deployed ∧
    pendingSwap.timelock < 100 := by
  refine ⟨rfl, by decide, by decide⟩

/-- C2 (amended, spec-modelled): for every stored record, refund succeeds iff
now > timelock and status is not 'claimed' (a 'pending' or 'refunded' record past
expiry also refunds); every attempt with now ≤ timelock fails with
TimelockNotExpiredError and leaves the store unchanged; an already-claimed record
past expiry fails with InvalidStateError and leaves the store unchanged. -/
theorem refundHTLC_spec_behavior (st : HTLCState) (swapId now : Nat) (receipt : Receipt)
    (swap : SwapRecord) (hlook : lookupSwap st swapId = some swap) :
    ((refundHTLC swapId now receipt st).1 = Except.ok receipt ↔
       swap.timelock < now ∧ swap.status ≠ SwapStatus.claimed) ∧
    (now ≤ swap.timelock →
       (refundHTLC swapId now receipt st).1 = Except.error HTLCError.timelockNotExpired ∧
       (refundHTLC swapId now receipt st).2 = st) ∧
    (swap.timelock < now → swap.status = SwapStatus.claimed →
       (refundHTLC swapId now receipt st).1 = Except.error HTLCError.invalidState ∧
       (refundHTLC swapId now receipt st).2 = st) := by
  unfold refundHTLC
  rw [hlook]
  by_cases h1 : now ≤ swap.timelock
  · have hnot : ¬ swap.timelock < now := by omega
    simp [h1, hnot]
  · have hlt : swap.timelock < now := by omega
    by_cases h2 : swap.status = SwapStatus.claimed
    · simp [h1, h2, hlt]
    · simp [h1, h2, hlt]

/-- Witness for C2's amended theorem: the pending-swap store past expiry
(now = 100 > timelock = 10) and before expiry (now = 5). -/
theorem refundHTLC_spec_behavior_witness :
    ((refundHTLC 1 100 rcptA pendingSwapState).1 = Except.ok rcptA ↔
        pendingSwap.timelock < 100 ∧ pendingSwap.status ≠ SwapStatus.claimed) ∧
    (refundHTLC 1 5 rcptA pendingSwapState).1 = Except.error HTLCError.timelockNotExpired ∧
    (refundHTLC 1 5 rcptA pendingSwapState).2 = pendingSwapState :=
  ⟨(refundHTLC_spec_behavior pendingSwapState 1 100 rcptA pendingSwap rfl).1,
   ((refundHTLC_spec_behavior pendingSwapState 1 5 rcptA pendingSwap rfl).2.1 (by decide)).1,
   ((refundHTLC_spec_behavior pendingSwapState 1 5 rcptA pendingSwap rfl).2.1 (by decide)).2⟩

/-! Claim C7. -/

/-- C7 counterexample: on the concrete store holding a swap that is already
'claimed' with an expired timelock, `monitorSwap` reports canRefund = true even
though the status is not 'deployed' — refuting the claimed characterisation of
canRefund at this input. -/
theorem monitorSwap_canRefund_ignores_status :
    (monitorSwap claimedSwapState 9 100).map MonitorResult.canRefund = some true ∧
    (monitorSwap claimedSwapState 9 100).map MonitorResult.status = some SwapStatus.claimed := by
  refine ⟨by decide, by decide⟩

/-- C7 (amended): `monitorSwap` is a pure read (it only projects the stored
record) returning canClaim true exactly when the status is 'deployed', and
canRefund true exactly when the timelock is strictly before now — the status is
not consulted for canRefund. -/
theorem monitorSwap_flags (st : HTLCState) (swapId now : Nat) (swap : SwapRecord)
    (hlook : lookupSwap st swapId = some swap) :
    ∃ r : MonitorResult, monitorSwap st swapId now = some r ∧
      (r.canClaim = true ↔ swap.status = SwapStatus.deployed) ∧
      (r.canRefund = true ↔ swap.timelock < now) := by
  unfold monitorSwap
  rw [hlook]
  exact ⟨_, rfl, by simp, by simp⟩

/-- Witness for C7's amended theorem: the claimed-swap store at now = 100. -/
theorem monitorSwap_flags_witness :
    ∃ r : MonitorResult, monitorSwap claimedSwapState 9 100 = some r ∧
      (r.canClaim = true ↔ claimedSwap.status = SwapStatus.deployed) ∧
      (r.canRefund = true ↔ claimedSwap.timelock < 100) :=
  monitorSwap_flags claimedSwapState 9 100 claimedSwap rfl

/-! Claim C8. -/

/-- C8 counterexample: `createHTLCParams` succeeds even though the destination
chain's family is unsupported — only the source family is checked, refuting the
claim that an unsupported destination family fails with InvalidChainError. -/
theorem createHTLCParams_ignores_dest_chain :
    chainUnknown.type = ChainType.other ∧
    (createHTLCParams idDigest idDigest chainEvm chainUnknown 1000000 42 500 5 1
        htlcEmpty).isSome = true := by
  refine ⟨rfl, rfl⟩

/-- Auxiliary: `generateHashLock` throws exactly on the unsupported family. -/
theorem generateHashLock_isSome_iff (keccak256 sha256 : Nat → Nat) (ct : ChainType)
    (secretBytes : Nat) :
    (generateHashLock keccak256 sha256 ct secretBytes).isSome ↔ ct ≠ ChainType.other := by
  cases ct <;> simp [generateHashLock]

/-- C8 (amended): `createHTLCParams` fails iff the SOURCE chain's family is
unsupported; the destination chain's family is never consulted. When it
succeeds, the stored record has status 'pending' and absolute timelock
now + timelockSeconds (the parameter defaults to 3600). -/
theorem createHTLCParams_source_family_only (keccak256 sha256 : Nat → Nat)
    (fromChain toChain : Chain) (amount recipient now secretBytes swapId : Nat)
    (st : HTLCState) (timelockSeconds : Nat) :
    ((createHTLCParams keccak256 sha256 fromChain toChain amount recipient now secretBytes
        swapId st timelockSeconds).isSome ↔ fromChain.type ≠ ChainType.other) ∧
    (∀ r st', createHTLCParams keccak256 sha256 fromChain toChain amount recipient now
        secretBytes swapId st timelockSeconds = some (r, st') →
      r.status = SwapStatus.pending ∧ r.timelock = now + timelockSeconds ∧
      lookupSwap st' swapId = some r) := by
  constructor
  · rw [← generateHashLock_isSome_iff keccak256 sha256 fromChain.type secretBytes]
    cases hgen : generateHashLock keccak256 sha256 fromChain.type secretBytes <;>
      simp [createHTLCParams, hgen]
  · intro r st' hr
    cases hgen : generateHashLock keccak256 sha256 fromChain.type secretBytes with
    | none =>
      unfold createHTLCParams at hr
      rw [hgen] at hr
      simp at hr
    | some hl =>
      unfold createHTLCParams at hr
      rw [hgen] at hr
      simp only [Option.some.injEq, Prod.mk.injEq] at hr
      obtain ⟨hrec, hst⟩ := hr
      subst hrec
      subst hst
      exact ⟨rfl, rfl, by simp [lookupSwap, lookupKey]⟩

/-- Witness for C8's amended theorem: evm source, unsupported destination. -/
theorem createHTLCParams_source_family_only_witness :
    ((createHTLCParams idDigest idDigest chainEvm chainUnknown 1000000 42 500 5 1 htlcEmpty
        3600).isSome ↔ chainEvm.type ≠ ChainType.other) ∧
    (c8result.status = SwapStatus.pending ∧ c8result.timelock = 500 + 3600 ∧
     lookupSwap c8state 1 = some c8result) :=
  ⟨(createHTLCParams_source_family_only idDigest idDigest chainEvm chainUnknown 1000000 42 500
      5 1 htlcEmpty 3600).1,
   (createHTLCParams_source_family_only idDigest idDigest chainEvm chainUnknown 1000000 42 500
      5 1 htlcEmpty 3600).2 c8result c8state (by decide)⟩

/-! Claim C9. -/

/-- C9 counterexample: on the concrete store holding an already-claimed swap with
stored receipt hash 7, a repeated claim with the correct secret and a freshly
simulated receipt (hash 99) returns the new receipt, not the stored one, and
overwrites claimTxHash — the repeat is not a no-op leaving the record unchanged. -/
theorem claimHTLC_reclaim_returns_new_receipt :
    claimedSwap.status = SwapStatus.claimed ∧
    claimedSwap.claimTxHash = some 7 ∧
    (claimHTLC idDigest 9 5 rcptB claimedSwapState).1 = Except.ok rcptB ∧
    rcptB.hash ≠ 7 ∧
    lookupSwap (claimHTLC idDigest 9 5 rcptB claimedSwapState).2 9
      = some { claimedSwap with claimTxHash := some 99 } := by
  refine ⟨rfl, rfl, rfl, by decide, by decide⟩

/-- C9 (amended): a repeated claim on an already-'claimed' record whose secret
matches succeeds again rather than short-circuiting: it returns the freshly
simulated receipt and overwrites the stored claimTxHash with the new hash
(the status stays 'claimed'). The source has no idempotency guard. -/
theorem claimHTLC_not_idempotent (keccak256 : Nat → Nat) (st : HTLCState)
    (swapId secret : Nat) (receipt : Receipt) (swap : SwapRecord)
    (hlook : lookupSwap st swapId = some swap)
    (_hclaimed : swap.status = SwapStatus.claimed)
    (hmatch : keccak256 secret = swap.hashLock) :
    (claimHTLC keccak256 swapId secret receipt st).1 = Except.ok receipt ∧
    lookupSwap (claimHTLC keccak256 swapId secret receipt st).2 swapId
      = some { swap with status := SwapStatus.claimed, claimTxHash := some receipt.hash } := by
  have hupd := lookupSwap_updateSwap st swapId
    (fun s => { s with status := SwapStatus.claimed, claimTxHash := some receipt.hash })
  unfold claimHTLC
  rw [hlook]
  simp [hmatch, hupd, hlook]

/-- Witness for C9's amended theorem: repeating the claim on the claimed-swap
store with receipt hash 99. -/
theorem claimHTLC_not_idempotent_witness :
    (claimHTLC idDigest 9 5 rcptB claimedSwapState).1 = Except.ok rcptB ∧
    lookupSwap (claimHTLC idDigest 9 5 rcptB claimedSwapState).2 9
      = some { claimedSwap with status := SwapStatus.claimed, claimTxHash := some rcptB.hash } :=
  claimHTLC_not_idempotent idDigest claimedSwapState 9 5 rcptB claimedSwap rfl rfl rfl

/-! Claim C3. -/

/-- C3: starting from a freshly created partial order, at every observation point
(after creation and after each fill attempt) the sum of amountIn over its fills
plus remainingAmountIn equals totalAmountIn; and every accepted fill strictly
decreases remainingAmountIn. -/
theorem pf_conservation_invariant (orderId user tokenIn tokenOut amountIn minAmountOut
    maxSlippage deadline createdAt chainId expectedAmountOut : Nat)
    (steps : List (LiquidityProvider × FillQuote)) :
    (∀ o ∈ runAttempts (createPartialOrder orderId user tokenIn tokenOut amountIn
        minAmountOut maxSlippage deadline createdAt chainId expectedAmountOut) steps,
      conservation o) ∧
    (∀ (o : PFOrder) (lp : LiquidityProvider) (q : FillQuote) (f : Fill),
      (attemptFill o lp q).2.2 = some f →
      (attemptFill o lp q).1.remainingAmountIn < o.remainingAmountIn) := by
  constructor
  · apply conservation_runAttempts
    unfold conservation createPartialOrder fillSum
    simp
  · exact attemptFill_decreases

/-- Witness for C3: conservation at a concrete freshly created order and the
strict decrease at a concrete accepted fill. -/
theorem pf_conservation_invariant_witness :
    conservation (createPartialOrder 1 2 3 4 100 5 1 10 0 1 95) ∧
    (attemptFill staleOrder lpBig qA).1.remainingAmountIn < staleOrder.remainingAmountIn :=
  ⟨(pf_conservation_invariant 1 2 3 4 100 5 1 10 0 1 95 []).1 _ (by simp [runAttempts]),
   (pf_conservation_invariant 1 2 3 4 100 5 1 10 0 1 95 []).2 staleOrder lpBig qA fillA
     (by decide)⟩

/-! Claim C4. -/

/-- C4: `processBatch` executes the revealed orders in non-decreasing order of
their commit timestamps — the executed sequence is a permutation of the
accumulated batch, pairwise sorted by the timestamp recorded at commit time,
regardless of the order reveals appended them — and the batch is cleared after
the pass. -/
theorem processBatch_fifo_and_clears (execOk : CommitData → Bool) (st : MEVState) :
    List.Pairwise (fun a b : CommitData => a.timestamp ≤ b.timestamp)
      (processBatch execOk st).1 ∧
    (processBatch execOk st).1.Perm st.currentBatch ∧
    (processBatch execOk st).2.currentBatch = [] := by
  have htrans : ∀ a b c : CommitData,
      (decide (a.timestamp ≤ b.timestamp)) = true →
      (decide (b.timestamp ≤ c.timestamp)) = true →
      (decide (a.timestamp ≤ c.timestamp)) = true := by
    intro a b c hab hbc
    simp only [decide_eq_true_eq] at *
    omega
  have htotal : ∀ a b : CommitData,
      ((decide (a.timestamp ≤ b.timestamp)) || (decide (b.timestamp ≤ a.timestamp))) = true := by
    intro a b
    simp only [Bool.or_eq_true, decide_eq_true_eq]
    omega
  by_cases hempty : st.currentBatch.isEmpty
  · have hnil : st.currentBatch = [] := List.isEmpty_iff.mp hempty
    simp [processBatch, hempty, hnil]
  · have hs := @List.sorted_mergeSort CommitData
      (fun a b => decide (a.timestamp ≤ b.timestamp)) htrans htotal st.currentBatch
    have hp := List.mergeSort_perm st.currentBatch
      (fun a b => decide (a.timestamp ≤ b.timestamp))
    refine ⟨?_, ?_, ?_⟩
    · simp only [processBatch, hempty, Bool.false_eq_true, if_false]
      exact hs.imp fun h => by simpa using h
    · simp only [processBatch, hempty, Bool.false_eq_true, if_false]
      exact hp
    · simp [processBatch, hempty]

/-! Claim C5. -/

/-- C5: for every stored commitment, a reveal whose recomputed digest over the
provided (orderParams, nonce) differs from the stored commitment fails with the
commitment-mismatch error and leaves the state — the commit's status and the
current batch — unchanged; a reveal succeeds only when the recomputed digest
equals the commitment. -/
theorem revealOrder_mismatch_rejected (digest : OrderParams → Nat → Nat) (st : MEVState)
    (commitment : Nat) (orderParams : OrderParams) (nonce : Nat) (cd : CommitData)
    (hlook : lookupKey st.pendingCommits commitment = some cd) :
    (digest orderParams nonce ≠ commitment →
       (revealOrder digest commitment orderParams nonce st).1
         = Except.error RevealError.commitmentMismatch ∧
       (revealOrder digest commitment orderParams nonce st).2 = st) ∧
    (∀ r, (revealOrder digest commitment orderParams nonce st).1 = Except.ok r →
       digest orderParams nonce = commitment) := by
  unfold revealOrder
  rw [hlook]
  by_cases h : digest orderParams nonce = commitment
  · simp [h]
  · simp [h]

/-- Witness for C5: a stored commitment (digest 5) revealed with a tampered nonce
whose digest is 6. -/
theorem revealOrder_mismatch_rejected_witness :
    (revealOrder nonceDigest 5 sampleParams 6 oneCommitState).1
      = Except.error RevealError.commitmentMismatch ∧
    (revealOrder nonceDigest 5 sampleParams 6 oneCommitState).2 = oneCommitState :=
  (revealOrder_mismatch_rejected nonceDigest oneCommitState 5 sampleParams 6 sampleCommit
    rfl).1 (by decide)

/-! Claim C6. -/

/-- C6 counterexample: staleOrder's deadline (10) is long past at now = 100 with
its full amount outstanding, yet `getOrderStatus` reports 'open' (never
'expired') and `matchOrder` schedules another retry — refuting the claim at this
input. -/
theorem stale_order_reported_open :
    staleOrder.deadline < 100 ∧
    0 < staleOrder.remainingAmountIn ∧
    (stalePFState.getOrderStatus 6).map PFStatusResult.status = some PFStatus.opened ∧
    (stalePFState.getOrderStatus 6).map PFStatusResult.status ≠ some PFStatus.expired ∧
    (matchOrder staleOrder []).2 = true := by
  refine ⟨by decide, by decide, by decide, by decide, by decide⟩

/-- C6 (amended): the engine never reports 'expired' — a stored order's reported
status is exactly its stored status, which `matchOrder` only ever moves from
'open' to 'completed' (when the remainder falls to the minimum fill or below)
and otherwise leaves 'open' while scheduling another retry; no deadline or clock
enters the decision (the source reads no time, so the model takes none). -/
theorem pf_order_never_expires (st : PFState) (orderId : Nat) (o : PFOrder)
    (hlook : lookupKey st.orders orderId = some o)
    (hopen : o.status = PFStatus.opened)
    (lps : List (LiquidityProvider × FillQuote)) :
    (st.getOrderStatus orderId).map PFStatusResult.status = some o.status ∧
    ((matchOrder o lps).1.status = PFStatus.opened ∨
     (matchOrder o lps).1.status = PFStatus.completed) ∧
    (minFillAmount < (matchOrderPass o lps).remainingAmountIn →
       (matchOrder o lps).2 = true) := by
  refine ⟨?_, ?_, ?_⟩
  · unfold PFState.getOrderStatus
    rw [hlook]
    rfl
  · unfold matchOrder
    rw [hopen]
    simp only [ne_eq, not_true_eq_false, if_false]
    unfold matchOrderFinish
    split_ifs with hrem
    · right
      rfl
    · left
      exact (matchOrderPass_status o lps).trans hopen
  · intro hgt
    have hnot : ¬ (matchOrderPass o lps).remainingAmountIn ≤ minFillAmount := by omega
    unfold matchOrder
    rw [hopen]
    simp [matchOrderFinish, hnot]

/-- Witness for C6's amended theorem: the stale order past its deadline. -/
theorem pf_order_never_expires_witness :
    (stalePFState.getOrderStatus 6).map PFStatusResult.status = some staleOrder.status ∧
    ((matchOrder staleOrder []).1.status = PFStatus.opened ∨
     (matchOrder staleOrder []).1.status = PFStatus.completed) ∧
    (matchOrder staleOrder []).2 = true :=
  ⟨(pf_order_never_expires stalePFState 6 staleOrder rfl rfl []).1,
   (pf_order_never_expires stalePFState 6 staleOrder rfl rfl []).2.1,
   (pf_order_never_expires stalePFState 6 staleOrder rfl rfl []).2.2 (by decide)⟩

/-! Claim C10. -/

/-- C10: for every identifier not present in the owning store, the read accessors
`monitorSwap`, the partial-fill engine's `getOrderStatus` and the MEV shield's
`getOrderStatus` return `null` (`none`) rather than throwing; each is a pure
function of the state (it returns no updated state, so it modifies none). -/
theorem unknown_id_reads_return_none (hst : HTLCState) (pst : PFState) (mst : MEVState)
    (swapId orderId mevOrderId now : Nat)
    (h1 : lookupKey hst.activeSwaps swapId = none)
    (h2 : lookupKey pst.orders orderId = none)
    (h3 : ∀ p ∈ mst.pendingCommits, p.2.id ≠ mevOrderId) :
    monitorSwap hst swapId now = none ∧
    pst.getOrderStatus orderId = none ∧
    mst.getOrderStatus mevOrderId = none := by
  refine ⟨?_, ?_, ?_⟩
  · unfold monitorSwap lookupSwap
    rw [h1]
  · unfold PFState.getOrderStatus
    rw [h2]
  · unfold MEVState.getOrderStatus
    have hfind : mst.pendingCommits.find? (fun p => p.2.id == mevOrderId) = none := by
      rw [List.find?_eq_none]
      intro p hp
      simp [h3 p hp]
    rw [hfind]

/-- Witness for C10: an id absent from all three (empty) stores. -/
theorem unknown_id_reads_return_none_witness :
    monitorSwap htlcEmpty 123 0 = none ∧
    pfEmpty.getOrderStatus 123 = none ∧
    mevEmpty.getOrderStatus 123 = none :=
  unknown_id_reads_return_none htlcEmpty pfEmpty mevEmpty 123 123 123 0 rfl rfl
    (by simp [mevEmpty])

end AeroSwap
